import Mathlib

/-!
# Verification of the bases-client session / dispatch / field-mapping core

Shallow embedding of `src/bases-client.ts`, `src/errors.ts` and `src/types.ts`
of the `@datasketch/bases-client` repository.

Modelling conventions:
* JavaScript objects (records, lookup maps) are association lists
  `List (String × β)` with the JS update semantics: assigning to an existing
  key overwrites its value in place, assigning to a fresh key appends it.
* A missing or empty string field is represented by `""`; the JS truthiness
  test `!s` on a possibly-null string is `strTruthy` on `Option String`.
* The HTTP transport is an oracle (a bundle of functions from request data to
  responses); response bodies are modelled at the level at which the client
  parses them.  `response.ok` is derived from the status (2xx).
* Each client method is a function from the client state and the oracle to
  `(result, new state, trace)` where the trace lists the network requests
  issued, in order, so that claims about "how many authentication calls
  happen" are statable.
* Exceptions become `Except BCError`.  The TypeScript error classes
  `BasesClientError` / `AuthenticationError` and the plain `Error` used for
  the table-not-set precondition are the three constructors of `BCError`.
-/

/-- FieldDef definition, from `src/types.ts` (`Field`).  All components are
strings; `""` stands for a missing/empty value (both are falsy in JS). -/
structure FieldDef where
  id : String
  label : String
  type : String
  tbl : String
  fld___id : String
  deriving DecidableEq, Repr

/-- The identity material kept in `this.#config` after the constructor strips
`tbl` (`src/types.ts` `Config` without `tbl`). -/
structure Config where
  org : String
  db : String
  token : String
  deriving DecidableEq, Repr

/-- The constructor argument, `src/types.ts` `Config` (with optional `tbl`). -/
structure ConfigIn where
  org : String
  db : String
  token : String
  tbl : Option String
  deriving DecidableEq, Repr

/-- The private mutable state of a `BasesClient` instance:
`#config`, `#currentTable`, `#authToken`. -/
structure ClientState where
  config : Config
  currentTable : Option String
  authToken : Option String
  deriving DecidableEq, Repr

/-- The error taxonomy of `src/errors.ts` plus the plain `Error` that the
source throws for the table-not-set precondition.  In the source
`AuthenticationError extends BasesClientError extends Error`; the flat
inductive keeps the most specific class of each thrown value. -/
inductive BCError where
  | authenticationError (message : String)
  | basesClientError (message : String)
  | runtimeError (message : String)
  deriving DecidableEq, Repr

/-- True for the two error classes defined in `src/errors.ts`
(`AuthenticationError` is a subclass of `BasesClientError`); false for a
plain JS `Error`. -/
def BCError.isRaisedKind : BCError → Bool
  | .authenticationError _ => true
  | .basesClientError _ => true
  | .runtimeError _ => false

/-- A network request issued by the client, as recorded in operation traces:
either the `POST /auth/generate` call (carrying the identity material and the
table name) or a domain call (carrying its endpoint and the bearer token of
the `Authorization` header). -/
inductive Request where
  | authCall (org db token tbl : String)
  | domainCall (endpoint : String) (bearer : String)
  deriving DecidableEq, Repr

/-- True exactly for authentication requests. -/
def Request.isAuth : Request → Bool
  | .authCall _ _ _ _ => true
  | .domainCall _ _ => false

/-- Number of authentication calls in a trace. -/
def countAuth (tr : List Request) : Nat :=
  (tr.filter Request.isAuth).length

/-- Response of the authentication endpoint, at the level the client parses
it: the status, the status text, `body.data` read as the token string
(`none` models an absent or null `data`), and `body.data?.message` read on
the 400 path (`none` models an absent message or an unparseable body, which
the source maps to `{}` via `.catch`). -/
structure AuthResp where
  status : Nat
  statusText : String
  dataField : Option String
  errMessage : Option String
  deriving DecidableEq, Repr

/-- A transport response for a domain call with parsed JSON body `β`. -/
structure HttpResp (β : Type) where
  status : Nat
  statusText : String
  body : β
  deriving DecidableEq, Repr

/-- A record: a JS object keyed by field id or label, with values in `α`. -/
abbrev Rec (α : Type) : Type := List (String × α)

/-- Parsed body of `tables/data`: `fields` and `data` are `some` exactly when
the corresponding property is present and an array (the source rejects the
body when `!fields || !Array.isArray(fields)` or likewise for `data`). -/
structure RecordsBody (α : Type) where
  fields : Option (List FieldDef)
  data : Option (List (Rec α))
  deriving DecidableEq, Repr

/-- Parsed body of `tables/rows/get`: `data` is `none` when the service
reports the record as `null`, and `fields` is `some` exactly when present and
an array. -/
structure RecordBody (α : Type) where
  data : Option (Rec α)
  fields : Option (List FieldDef)
  deriving DecidableEq, Repr

/-- Parsed body of the success-reporting POST endpoints (`{success: bool}`). -/
structure SuccessBody where
  success : Bool
  deriving DecidableEq, Repr

/-- The network oracle: what the remote service answers to each request the
client can issue.  `auth` is keyed by the table name sent (the identity
material is fixed by the state); domain responses are keyed by the data that
varies in the request (bearer token, record id, endpoint). -/
structure Oracle (α : Type) where
  auth : String → AuthResp
  recordsData : String → HttpResp (RecordsBody α)
  recordGet : String → String → HttpResp (RecordBody α)
  fieldsList : String → HttpResp (List FieldDef)
  post : String → String → HttpResp SuccessBody

/-- JS truthiness of a nullable string: `null`/`undefined` and `""` are
falsy. -/
def strTruthy : Option String → Bool
  | none => false
  | some s => if s = "" then false else true

/-- JS `x || d` for a nullable string `x`: the fallback fires on
`null`/`undefined` and on `""`. -/
def orDefault (o : Option String) (d : String) : String :=
  match o with
  | some s => if s = "" then d else s
  | none => d

/-- `response.ok` of the Fetch API: status in the 2xx range. -/
def respOk (status : Nat) : Bool :=
  decide (200 ≤ status) && decide (status < 300)

/-- JS object property assignment `o[k] = v`: overwrite in place if the key
exists, append otherwise. -/
def objSet (o : List (String × β)) (k : String) (v : β) : List (String × β) :=
  match o with
  | [] => [(k, v)]
  | (k', v') :: rest => if k' = k then (k', v) :: rest else (k', v') :: objSet rest k v

/-- JS object property read `o[k]` (first — and, for objects built with
`objSet`, only — binding of `k`). -/
def lookupObj (o : List (String × β)) (k : String) : Option β :=
  match o with
  | [] => none
  | (k', v) :: rest => if k' = k then some v else lookupObj rest k

/-- `Object.keys`. -/
def keysOf (o : List (String × β)) : List String :=
  o.map Prod.fst

/-- The `fields.reduce` pattern shared by `getRecords` and `getRecord`:
fold the field list into a string-to-string object, skipping any field whose
`id` or `label` is falsy, binding `g field` to `h field`. -/
def buildMap (g h : FieldDef → String) (fields : List FieldDef) : List (String × String) :=
  fields.foldl (fun acc f => if f.id ≠ "" ∧ f.label ≠ "" then objSet acc (g f) (h f) else acc) []

/-- The id→label lookup of `getRecords`/`getRecord`:
`acc[field.id] = field.label` for every field with truthy `id` and `label`. -/
def mkFieldMap (fields : List FieldDef) : List (String × String) :=
  buildMap (fun f => f.id) (fun f => f.label) fields

/-- Modelled from the spec: the source implements only the id→label direction
of the field-mapping transform; the reverse (label→id) mapping used by the
round-trip property is built from the field list by the same construction
with id and label exchanged, as the spec words it ("reversed using `F`
(label→id)"). -/
def mkReverseMap (fields : List FieldDef) : List (String × String) :=
  buildMap (fun f => f.label) (fun f => f.id) fields

/-- The key translation `fieldMap[key] || key` of the mapping step. -/
def mapKey (fm : List (String × String)) (k : String) : String :=
  match lookupObj fm k with
  | some l => if l = "" then k else l
  | none => k

/-- Modelled from the spec: the reverse key translation — a key that appears
as a label of `F` is replaced by the corresponding id, any other key passes
through unchanged. -/
def unmapKey (rm : List (String × String)) (k : String) : String :=
  (lookupObj rm k).getD k

/-- Rebuild a record with every key translated by `f`, JS-object style
(`mapped[f key] = record[key]` over `Object.keys(record)` in order). -/
def remapRecord (f : String → String) (record : Rec α) : Rec α :=
  record.foldl (fun acc kv => objSet acc (f kv.1) kv.2) []

/-- The mapping step of `getRecords` / `getRecord`: a new record where every
original key `key` is stored at `fieldMap[key] || key` with its original
value. -/
def mapRecordToLabels (fm : List (String × String)) (record : Rec α) : Rec α :=
  remapRecord (mapKey fm) record

/-- Modelled from the spec: the reverse of `mapRecordToLabels`, translating
label keys back to ids with `unmapKey`. -/
def mapRecordToIds (rm : List (String × String)) (record : Rec α) : Rec α :=
  remapRecord (unmapKey rm) record

/-- Message of the plain `Error` thrown when no table is selected. -/
def tableNotSetMsg : String :=
  "Table not set. Call setTable() before making any requests."

/-- The `HTTP error: <status> <statusText>` message used for every non-2xx
response that is not specially classified. -/
def httpErrMsg (status : Nat) (statusText : String) : String :=
  "HTTP error: " ++ toString status ++ " " ++ statusText

/-- The `constructor(config)`: strips `tbl` from the config, stores the rest,
and adopts `tbl` as the current table when truthy.  The source constructor
has no throwing path; it is embedded into `Except` so that the (absence of a)
construction-time failure is statable. -/
def construct (cfg : ConfigIn) : Except BCError ClientState :=
  .ok
    { config := { org := cfg.org, db := cfg.db, token := cfg.token }
      currentTable := if strTruthy cfg.tbl then cfg.tbl else none
      authToken := none }

/-- The response-handling body of `#authenticate()`: 401 →
`AuthenticationError`, 400 → `AuthenticationError` with the service message
or the `"Invalid request"` default, other non-2xx → `BasesClientError` with
status and status text; on 2xx a falsy `data` (absent, null or `""`) is an
`AuthenticationError`, otherwise the token is the result. -/
def classifyAuth (resp : AuthResp) : Except BCError String :=
  if respOk resp.status = false then
    if resp.status = 401 then
      .error (.authenticationError "Invalid credentials provided")
    else if resp.status = 400 then
      .error (.authenticationError (orDefault resp.errMessage "Invalid request"))
    else
      .error (.basesClientError (httpErrMsg resp.status resp.statusText))
  else
    match resp.dataField with
    | none => .error (.authenticationError "Auth token not provided in response")
    | some tok =>
      if tok = "" then .error (.authenticationError "Auth token not provided in response")
      else .ok tok

/-- `#authenticate()`: precondition check on the current table (a plain
`Error` when falsy, thrown outside the `try`), then one `POST /auth/generate`
carrying the identity material and the table, whose response is handled by
`classifyAuth`; on success the returned token is cached, on failure the
state is left untouched. -/
def authenticate (st : ClientState) (ω : Oracle α) :
    Except BCError Unit × ClientState × List Request :=
  match st.currentTable with
  | none => (.error (.runtimeError tableNotSetMsg), st, [])
  | some tbl =>
    if tbl = "" then (.error (.runtimeError tableNotSetMsg), st, [])
    else
      let req : Request := .authCall st.config.org st.config.db st.config.token tbl
      match classifyAuth (ω.auth tbl) with
      | .error e => (.error e, st, [req])
      | .ok tok => (.ok (), { st with authToken := some tok }, [req])

/-- `setTable(tbl)`: when the argument differs from the current table,
replace the table, clear the cached token, and immediately authenticate;
otherwise do nothing. -/
def setTable (tbl : String) (st : ClientState) (ω : Oracle α) :
    Except BCError Unit × ClientState × List Request :=
  if st.currentTable ≠ some tbl then
    authenticate { st with currentTable := some tbl, authToken := none } ω
  else
    (.ok (), st, [])

/-- `#fetch(endpoint)`: precondition check on the current table (plain
`Error`), lazy authentication when no truthy token is cached, then the domain
request with the `Authorization: Bearer` header.  `net` is the oracle column
for this endpoint, keyed by the bearer token sent. -/
def fetchWithAuth (net : String → HttpResp β) (endpoint : String) (st : ClientState)
    (ω : Oracle α) : Except BCError (HttpResp β) × ClientState × List Request :=
  if strTruthy st.currentTable = false then
    (.error (.runtimeError tableNotSetMsg), st, [])
  else if strTruthy st.authToken = false then
    match authenticate st ω with
    | (.error e, st1, tr) => (.error e, st1, tr)
    | (.ok _, st1, tr) =>
      let bearer := st1.authToken.getD ""
      (.ok (net bearer), st1, tr ++ [.domainCall endpoint bearer])
  else
    let bearer := st.authToken.getD ""
    (.ok (net bearer), st, [.domainCall endpoint bearer])

/-- `getRecords({mapValues})`: fetch `tables/data`; non-2xx is a
`BasesClientError`; with `mapValues` false the parsed body is returned
untouched; otherwise `fields` and `data` must both be arrays (else a
`BasesClientError`) and every record is rebuilt with id keys replaced by
labels. -/
def getRecords (mapValues : Bool) (st : ClientState) (ω : Oracle α) :
    Except BCError (RecordsBody α) × ClientState × List Request :=
  match fetchWithAuth ω.recordsData "tables/data" st ω with
  | (.error e, st1, tr) => (.error e, st1, tr)
  | (.ok resp, st1, tr) =>
    if respOk resp.status = false then
      (.error (.basesClientError (httpErrMsg resp.status resp.statusText)), st1, tr)
    else if mapValues = false then
      (.ok resp.body, st1, tr)
    else
      match resp.body.fields, resp.body.data with
      | some fields, some records =>
        (.ok { fields := some fields
               data := some (records.map (mapRecordToLabels (mkFieldMap fields))) }, st1, tr)
      | some _, none =>
        (.error (.basesClientError "Invalid response structure: expected data and fields arrays"), st1, tr)
      | none, _ =>
        (.error (.basesClientError "Invalid response structure: expected data and fields arrays"), st1, tr)

/-- `getRecord({id, mapValues})`: fetch `tables/rows/get?id=<id>`; non-2xx is
a `BasesClientError`; with `mapValues` false the parsed body is returned
untouched; a `null` record is returned untouched; otherwise `fields` must be
an array (else a `BasesClientError`) and the record is rebuilt with id keys
replaced by labels. -/
def getRecord (id : String) (mapValues : Bool) (st : ClientState) (ω : Oracle α) :
    Except BCError (RecordBody α) × ClientState × List Request :=
  match fetchWithAuth (ω.recordGet id) ("tables/rows/get?id=" ++ id) st ω with
  | (.error e, st1, tr) => (.error e, st1, tr)
  | (.ok resp, st1, tr) =>
    if respOk resp.status = false then
      (.error (.basesClientError (httpErrMsg resp.status resp.statusText)), st1, tr)
    else if mapValues = false then
      (.ok resp.body, st1, tr)
    else
      match resp.body.data with
      | none => (.ok resp.body, st1, tr)
      | some record =>
        match resp.body.fields with
        | none =>
          (.error (.basesClientError "Invalid response structure: expected fields array"), st1, tr)
        | some fields =>
          (.ok { data := some (mapRecordToLabels (mkFieldMap fields) record)
                 fields := some fields }, st1, tr)

/-- `getFields()`: fetch `tables/fields`; non-2xx is a `BasesClientError`;
the body is returned as the field list. -/
def getFields (st : ClientState) (ω : Oracle α) :
    Except BCError (List FieldDef) × ClientState × List Request :=
  match fetchWithAuth ω.fieldsList "tables/fields" st ω with
  | (.error e, st1, tr) => (.error e, st1, tr)
  | (.ok resp, st1, tr) =>
    if respOk resp.status = false then
      (.error (.basesClientError (httpErrMsg resp.status resp.statusText)), st1, tr)
    else
      (.ok resp.body, st1, tr)

/-- The shape shared by every success-reporting POST operation
(`updateRecord`, `updateRecords`, `insertRecord`, `insertRecords`,
`deleteRecord`, `createView`, `updateView`, `deleteView`, `getView`): fetch
the endpoint, turn a non-2xx status into a `BasesClientError`, and return
`{success: response.success}`.  Request bodies carry no client state and are
not modelled. -/
def postOp (endpoint : String) (st : ClientState) (ω : Oracle α) :
    Except BCError SuccessBody × ClientState × List Request :=
  match fetchWithAuth (ω.post endpoint) endpoint st ω with
  | (.error e, st1, tr) => (.error e, st1, tr)
  | (.ok resp, st1, tr) =>
    if respOk resp.status = false then
      (.error (.basesClientError (httpErrMsg resp.status resp.statusText)), st1, tr)
    else
      (.ok { success := resp.body.success }, st1, tr)

/-- `updateRecord(id, data)`. -/
def updateRecord (st : ClientState) (ω : Oracle α) := postOp "tables/rows/update" st ω

/-- `updateRecords(data)`. -/
def updateRecords (st : ClientState) (ω : Oracle α) := postOp "tables/rows/update-many" st ω

/-- `insertRecord(data)`. -/
def insertRecord (st : ClientState) (ω : Oracle α) := postOp "tables/rows/insert" st ω

/-- `insertRecords(data)`. -/
def insertRecords (st : ClientState) (ω : Oracle α) := postOp "tables/upload-bulk-json" st ω

/-- `deleteRecord(id)`. -/
def deleteRecord (st : ClientState) (ω : Oracle α) := postOp "tables/rows/delete" st ω

/-- `createView(id, table, type, config)`. -/
def createView (st : ClientState) (ω : Oracle α) := postOp "tables/viz/create" st ω

/-- `updateView(id, config)`. -/
def updateView (st : ClientState) (ω : Oracle α) := postOp "tables/viz/update" st ω

/-- `deleteView(id)`. -/
def deleteView (st : ClientState) (ω : Oracle α) := postOp "tables/viz/delete" st ω

/-- `getView(id)`. -/
def getView (st : ClientState) (ω : Oracle α) := postOp "tables/viz/get" st ω

/-! ## Lemmas about the JS object model -/

theorem mem_keysOf (o : List (String × β)) (x : String) :
    x ∈ keysOf o ↔ ∃ v, (x, v) ∈ o := by
  simp [keysOf, List.mem_map, Prod.exists]

theorem lookupObj_objSet_self (o : List (String × β)) (k : String) (v : β) :
    lookupObj (objSet o k v) k = some v := by
  induction o with
  | nil => simp [objSet, lookupObj]
  | cons p rest ih =>
    obtain ⟨k', v'⟩ := p
    by_cases h : k' = k
    · simp [objSet, lookupObj, h]
    · simp [objSet, lookupObj, h, ih]

theorem lookupObj_objSet_ne (o : List (String × β)) (k k' : String) (v : β)
    (h : k' ≠ k) : lookupObj (objSet o k v) k' = lookupObj o k' := by
  induction o with
  | nil =>
    show (if k = k' then some v else none) = none
    rw [if_neg (Ne.symm h)]
  | cons p rest ih =>
    obtain ⟨k₀, v₀⟩ := p
    by_cases h₀ : k₀ = k
    · subst h₀
      rw [show objSet ((k₀, v₀) :: rest) k₀ v = (k₀, v) :: rest by simp [objSet]]
      show (if k₀ = k' then some v else lookupObj rest k') =
        if k₀ = k' then some v₀ else lookupObj rest k'
      rw [if_neg (Ne.symm h), if_neg (Ne.symm h)]
    · simp only [objSet, if_neg h₀, lookupObj]
      by_cases h₁ : k₀ = k'
      · simp [h₁]
      · simp [h₁, ih]

theorem mem_keysOf_objSet (o : List (String × β)) (k x : String) (v : β) :
    x ∈ keysOf (objSet o k v) ↔ x ∈ keysOf o ∨ x = k := by
  induction o with
  | nil => simp [objSet, keysOf]
  | cons p rest ih =>
    obtain ⟨k₀, v₀⟩ := p
    by_cases h₀ : k₀ = k
    · subst h₀
      simp [objSet, keysOf]
      tauto
    · simp only [objSet, if_neg h₀, keysOf, List.map_cons, List.mem_cons] at ih ⊢
      rw [ih]
      tauto

/-! ## Lemmas about `remapRecord` (the key-translation fold) -/

theorem remap_foldl_mem_keys_acc (f : String → String) (R : Rec α) :
    ∀ (acc : Rec α) (x : String), x ∈ keysOf acc →
      x ∈ keysOf (R.foldl (fun acc kv => objSet acc (f kv.1) kv.2) acc) := by
  induction R with
  | nil => intro acc x h; simpa using h
  | cons kv R' ih =>
    intro acc x h
    exact ih (objSet acc (f kv.1) kv.2) x ((mem_keysOf_objSet acc (f kv.1) x kv.2).2 (Or.inl h))

theorem remap_foldl_mem_keys (f : String → String) (R : Rec α) :
    ∀ (acc : Rec α) (k : String) (v : α), (k, v) ∈ R →
      f k ∈ keysOf (R.foldl (fun acc kv => objSet acc (f kv.1) kv.2) acc) := by
  induction R with
  | nil => intro _ _ _ h; cases h
  | cons kv R' ih =>
    intro acc k v h
    rcases List.mem_cons.mp h with hh | hh
    · subst hh
      exact remap_foldl_mem_keys_acc f R' _ (f k)
        ((mem_keysOf_objSet acc (f k) (f k) v).2 (Or.inr rfl))
    · exact ih _ k v hh

theorem remap_foldl_untouched (f : String → String) (R : Rec α) :
    ∀ (acc : Rec α) (x : String), (∀ p ∈ R, f p.1 ≠ x) →
      lookupObj (R.foldl (fun acc kv => objSet acc (f kv.1) kv.2) acc) x = lookupObj acc x := by
  induction R with
  | nil => intro acc x _; rfl
  | cons kv R' ih =>
    intro acc x h
    rw [List.foldl_cons, ih _ x (fun p hp => h p (List.mem_cons_of_mem _ hp)),
      lookupObj_objSet_ne _ _ _ _ (fun hx => h kv (List.mem_cons_self _ _) hx.symm)]

theorem remapRecord_mem_keys (f : String → String) (R : Rec α) (k : String) (v : α)
    (h : (k, v) ∈ R) : f k ∈ keysOf (remapRecord f R) :=
  remap_foldl_mem_keys f R [] k v h

theorem remapRecord_lookup (f : String → String) (R : Rec α)
    (hnd : (keysOf R).Nodup)
    (hinj : ∀ k₁ ∈ keysOf R, ∀ k₂ ∈ keysOf R, f k₁ = f k₂ → k₁ = k₂)
    (k : String) (v : α) (h : (k, v) ∈ R) :
    lookupObj (remapRecord f R) (f k) = some v := by
  have main : ∀ (R : Rec α), (keysOf R).Nodup →
      (∀ k₁ ∈ keysOf R, ∀ k₂ ∈ keysOf R, f k₁ = f k₂ → k₁ = k₂) →
      ∀ (acc : Rec α) (k : String) (v : α), (k, v) ∈ R →
      lookupObj (R.foldl (fun acc kv => objSet acc (f kv.1) kv.2) acc) (f k) = some v := by
    intro R
    induction R with
    | nil => intro _ _ _ _ _ hmem; cases hmem
    | cons kv R' ih =>
      intro hnd hinj acc k v hmem
      obtain ⟨k₀, v₀⟩ := kv
      have hndsplit : k₀ ∉ keysOf R' ∧ (keysOf R').Nodup := by
        simpa [keysOf, List.nodup_cons] using hnd
      rcases List.mem_cons.mp hmem with hh | hh
      · cases hh
        rw [List.foldl_cons]
        have huntouched : ∀ p ∈ R', f p.1 ≠ f k := by
          intro p hp hfe
          have hmemp : p.1 ∈ keysOf ((k, v) :: R') := by
            simp only [keysOf, List.map_cons, List.mem_cons]
            exact Or.inr ((mem_keysOf R' p.1).2 ⟨p.2, hp⟩)
          have hpk : p.1 = k :=
            hinj p.1 hmemp k (by simp [keysOf]) hfe
          exact hndsplit.1 (hpk ▸ (mem_keysOf R' p.1).2 ⟨p.2, hp⟩)
        rw [remap_foldl_untouched f R' _ (f k) huntouched, lookupObj_objSet_self]
      · rw [List.foldl_cons]
        refine ih hndsplit.2 ?_ _ k v hh
        intro k₁ h₁ k₂ h₂ hfe
        refine hinj k₁ ?_ k₂ ?_ hfe
        · simp only [keysOf, List.map_cons, List.mem_cons]; exact Or.inr h₁
        · simp only [keysOf, List.map_cons, List.mem_cons]; exact Or.inr h₂
  exact main R hnd hinj [] k v h

/-! ## Lemmas about `buildMap` (the field-lookup fold) -/

theorem buildMap_foldl_sound (g h : FieldDef → String) (F : List FieldDef) :
    ∀ (acc : List (String × String)) (k l : String),
      lookupObj (F.foldl (fun acc f => if f.id ≠ "" ∧ f.label ≠ "" then objSet acc (g f) (h f) else acc) acc) k = some l →
      lookupObj acc k = some l ∨ ∃ f ∈ F, f.id ≠ "" ∧ f.label ≠ "" ∧ g f = k ∧ h f = l := by
  induction F with
  | nil => intro acc k l hl; exact Or.inl hl
  | cons f F' ih =>
    intro acc k l hl
    rw [List.foldl_cons] at hl
    rcases ih _ k l hl with hacc | ⟨f', hf', hprops⟩
    · by_cases hkept : f.id ≠ "" ∧ f.label ≠ ""
      · rw [if_pos hkept] at hacc
        by_cases hgk : g f = k
        · subst hgk
          rw [lookupObj_objSet_self] at hacc
          exact Or.inr ⟨f, List.mem_cons_self _ _, hkept.1, hkept.2, rfl, Option.some.inj hacc⟩
        · rw [lookupObj_objSet_ne _ _ _ _ (fun he => hgk he.symm)] at hacc
          exact Or.inl hacc
      · rw [if_neg hkept] at hacc
        exact Or.inl hacc
    · exact Or.inr ⟨f', List.mem_cons_of_mem _ hf', hprops⟩

theorem buildMap_foldl_complete (g h : FieldDef → String) (F : List FieldDef) :
    ∀ (acc : List (String × String)) (k : String),
      ((∃ f ∈ F, f.id ≠ "" ∧ f.label ≠ "" ∧ g f = k) ∨ ∃ l, lookupObj acc k = some l) →
      ∃ l, lookupObj (F.foldl (fun acc f => if f.id ≠ "" ∧ f.label ≠ "" then objSet acc (g f) (h f) else acc) acc) k = some l := by
  induction F with
  | nil =>
    intro acc k hk
    rcases hk with ⟨f, hf, _⟩ | hacc
    · cases hf
    · exact hacc
  | cons f F' ih =>
    intro acc k hk
    rw [List.foldl_cons]
    rcases hk with ⟨f', hf', hid, hlb, hgk⟩ | ⟨l, hacc⟩
    · rcases List.mem_cons.mp hf' with hh | hh
      · subst hh
        refine ih _ k (Or.inr ?_)
        rw [if_pos ⟨hid, hlb⟩, hgk, lookupObj_objSet_self]
        exact ⟨h f', rfl⟩
      · exact ih _ k (Or.inl ⟨f', hh, hid, hlb, hgk⟩)
    · refine ih _ k (Or.inr ?_)
      by_cases hkept : f.id ≠ "" ∧ f.label ≠ ""
      · rw [if_pos hkept]
        by_cases hgk : g f = k
        · subst hgk
          exact ⟨h f, lookupObj_objSet_self _ _ _⟩
        · rw [lookupObj_objSet_ne _ _ _ _ (fun he => hgk he.symm)]
          exact ⟨l, hacc⟩
      · rw [if_neg hkept]
        exact ⟨l, hacc⟩

theorem buildMap_sound (g h : FieldDef → String) (F : List FieldDef) (k l : String)
    (hl : lookupObj (buildMap g h F) k = some l) :
    ∃ f ∈ F, f.id ≠ "" ∧ f.label ≠ "" ∧ g f = k ∧ h f = l := by
  rcases buildMap_foldl_sound g h F [] k l hl with hacc | hgood
  · cases hacc
  · exact hgood

theorem buildMap_complete (g h : FieldDef → String) (F : List FieldDef) (k : String)
    (hk : ∃ f ∈ F, f.id ≠ "" ∧ f.label ≠ "" ∧ g f = k) :
    ∃ l, lookupObj (buildMap g h F) k = some l :=
  buildMap_foldl_complete g h F [] k (Or.inl hk)

/-! ## Lemmas about the client operations -/

theorem classifyAuth_error_kind (resp : AuthResp) (e : BCError)
    (h : classifyAuth resp = .error e) : e.isRaisedKind = true := by
  unfold classifyAuth at h
  split at h
  · split at h
    · injection h with h'; subst h'; rfl
    · split at h
      · injection h with h'; subst h'; rfl
      · injection h with h'; subst h'; rfl
  · rcases hdf : resp.dataField with _ | tok
    · simp only [hdf] at h
      injection h with h'; subst h'; rfl
    · simp only [hdf] at h
      split at h
      · injection h with h'; subst h'; rfl
      · cases h

theorem classifyAuth_ok_ne (resp : AuthResp) (tok : String)
    (h : classifyAuth resp = .ok tok) : tok ≠ "" := by
  unfold classifyAuth at h
  split at h
  · split at h
    · cases h
    · split at h <;> cases h
  · rcases hdf : resp.dataField with _ | tok'
    · simp only [hdf] at h
      cases h
    · simp only [hdf] at h
      split at h
      · cases h
      · injection h with h'
        subst h'
        assumption

theorem classifyAuth_401 (resp : AuthResp) (h : resp.status = 401) :
    classifyAuth resp = .error (.authenticationError "Invalid credentials provided") := by
  unfold classifyAuth
  rw [h]
  rfl

theorem classifyAuth_400 (resp : AuthResp) (h : resp.status = 400) :
    classifyAuth resp = .error (.authenticationError (orDefault resp.errMessage "Invalid request")) := by
  unfold classifyAuth
  rw [h]
  rfl

theorem classifyAuth_other (resp : AuthResp) (hok : respOk resp.status = false)
    (h401 : resp.status ≠ 401) (h400 : resp.status ≠ 400) :
    classifyAuth resp = .error (.basesClientError (httpErrMsg resp.status resp.statusText)) := by
  unfold classifyAuth
  rw [hok, if_pos rfl, if_neg h401, if_neg h400]

theorem classifyAuth_token (resp : AuthResp) (tok : String) (hok : respOk resp.status = true)
    (hdf : resp.dataField = some tok) (htok : tok ≠ "") :
    classifyAuth resp = .ok tok := by
  unfold classifyAuth
  rw [hok, hdf]
  simp [htok]

theorem classifyAuth_falsy (resp : AuthResp) (hok : respOk resp.status = true)
    (hdf : resp.dataField = none ∨ resp.dataField = some "") :
    classifyAuth resp = .error (.authenticationError "Auth token not provided in response") := by
  unfold classifyAuth
  rw [hok]
  rcases hdf with hdf | hdf <;> rw [hdf] <;> rfl

theorem authenticate_some (st : ClientState) (ω : Oracle α) (t : String)
    (ht : st.currentTable = some t) (ht2 : t ≠ "") :
    authenticate st ω =
      (match classifyAuth (ω.auth t) with
       | .error e => (.error e, st, [Request.authCall st.config.org st.config.db st.config.token t])
       | .ok tok => (.ok (), { st with authToken := some tok },
           [Request.authCall st.config.org st.config.db st.config.token t])) := by
  simp only [authenticate, ht]
  rw [if_neg ht2]

theorem strTruthy_some (o : Option String) (h : strTruthy o = true) :
    ∃ t, o = some t ∧ t ≠ "" := by
  cases o with
  | none => cases h
  | some s =>
    refine ⟨s, rfl, ?_⟩
    intro hs
    rw [show strTruthy (some s) = false by simp [strTruthy, hs]] at h
    cases h

theorem authenticate_notable (st : ClientState) (ω : Oracle α)
    (ht : strTruthy st.currentTable = false) :
    authenticate st ω = (.error (.runtimeError tableNotSetMsg), st, []) := by
  cases hct : st.currentTable with
  | none => simp [authenticate, hct]
  | some t =>
    have hte : t = "" := by
      rw [hct] at ht
      by_cases h0 : t = ""
      · exact h0
      · rw [show strTruthy (some t) = true by simp [strTruthy, h0]] at ht
        cases ht
    simp [authenticate, hct, hte]

theorem authenticate_error_kind (st : ClientState) (ω : Oracle α)
    (ht : strTruthy st.currentTable = true) (e : BCError)
    (he : (authenticate st ω).1 = .error e) : e.isRaisedKind = true := by
  obtain ⟨t, ht1, ht2⟩ := strTruthy_some _ ht
  rw [authenticate_some st ω t ht1 ht2] at he
  rcases hc : classifyAuth (ω.auth t) with e' | tok <;> simp only [hc] at he
  · cases he
    exact classifyAuth_error_kind _ _ hc
  · cases he

theorem authenticate_error_state (st : ClientState) (ω : Oracle α)
    (ht : strTruthy st.currentTable = true) (e : BCError)
    (he : (authenticate st ω).1 = .error e) : (authenticate st ω).2.1 = st := by
  obtain ⟨t, ht1, ht2⟩ := strTruthy_some _ ht
  rw [authenticate_some st ω t ht1 ht2] at he ⊢
  rcases hc : classifyAuth (ω.auth t) with e' | tok <;> simp only [hc] at he ⊢
  cases he

theorem authenticate_ok_state (st : ClientState) (ω : Oracle α)
    (ht : strTruthy st.currentTable = true)
    (hok : ∀ e, (authenticate st ω).1 ≠ .error e) :
    ∃ tok, tok ≠ "" ∧ (authenticate st ω).2.1 = { st with authToken := some tok } := by
  obtain ⟨t, ht1, ht2⟩ := strTruthy_some _ ht
  rw [authenticate_some st ω t ht1 ht2] at hok ⊢
  rcases hc : classifyAuth (ω.auth t) with e' | tok <;> simp only [hc] at hok ⊢
  · exact absurd rfl (hok e')
  · exact ⟨tok, classifyAuth_ok_ne _ _ hc, rfl⟩

theorem fetchWithAuth_cached (net : String → HttpResp β) (endpoint : String)
    (st : ClientState) (ω : Oracle α) (b : String)
    (ht : strTruthy st.currentTable = true) (hb : st.authToken = some b) (hb2 : b ≠ "") :
    fetchWithAuth net endpoint st ω = (.ok (net b), st, [.domainCall endpoint b]) := by
  have hsb : strTruthy (some b) = true := by simp [strTruthy, hb2]
  simp [fetchWithAuth, ht, hb, hsb]

theorem fetchWithAuth_uncached (net : String → HttpResp β) (endpoint : String)
    (st : ClientState) (ω : Oracle α)
    (ht : strTruthy st.currentTable = true) (htok : strTruthy st.authToken = false) :
    fetchWithAuth net endpoint st ω =
      (match authenticate st ω with
       | (.error e, st1, tr) => (.error e, st1, tr)
       | (.ok _, st1, tr) =>
         (.ok (net (st1.authToken.getD "")), st1,
           tr ++ [.domainCall endpoint (st1.authToken.getD "")])) := by
  simp [fetchWithAuth, ht, htok]

theorem fetchWithAuth_error_kind (net : String → HttpResp β) (endpoint : String)
    (st : ClientState) (ω : Oracle α)
    (ht : strTruthy st.currentTable = true) (e : BCError)
    (he : (fetchWithAuth net endpoint st ω).1 = .error e) : e.isRaisedKind = true := by
  by_cases htok : strTruthy st.authToken = false
  · rw [fetchWithAuth_uncached net endpoint st ω ht htok] at he
    rcases hA : authenticate st ω with ⟨r, st1, tr⟩
    rw [hA] at he
    rcases r with e' | u
    · cases he
      exact authenticate_error_kind st ω ht e (by rw [hA])
    · cases he
  · obtain ⟨b, hb, hb2⟩ := strTruthy_some st.authToken (by
      rcases h : strTruthy st.authToken with _ | _
      · exact absurd h htok
      · rfl)
    rw [fetchWithAuth_cached net endpoint st ω b ht hb hb2] at he
    cases he

theorem fetchWithAuth_notable (net : String → HttpResp β) (endpoint : String)
    (st : ClientState) (ω : Oracle α) (ht : strTruthy st.currentTable = false) :
    fetchWithAuth net endpoint st ω = (.error (.runtimeError tableNotSetMsg), st, []) := by
  simp [fetchWithAuth, ht]

theorem getRecords_error_kind (mv : Bool) (st : ClientState) (ω : Oracle α)
    (ht : strTruthy st.currentTable = true) (e : BCError)
    (he : (getRecords mv st ω).1 = .error e) : e.isRaisedKind = true := by
  unfold getRecords at he
  rcases hF : fetchWithAuth ω.recordsData "tables/data" st ω with ⟨r, st1, tr⟩
  rcases r with e' | resp
  · simp only [hF] at he
    injection he with h'
    subst h'
    exact fetchWithAuth_error_kind _ _ _ _ ht _ (by rw [hF])
  · simp only [hF] at he
    by_cases hok : respOk resp.status = false
    · rw [if_pos hok] at he
      injection he with h'
      subst h'
      rfl
    · rw [if_neg hok] at he
      by_cases hmv : mv = false
      · rw [if_pos hmv] at he
        cases he
      · rw [if_neg hmv] at he
        rcases hfds : resp.body.fields with _ | fields <;>
          rcases hd : resp.body.data with _ | records <;>
          simp only [hfds, hd] at he
        · injection he with h'; subst h'; rfl
        · injection he with h'; subst h'; rfl
        · injection he with h'; subst h'; rfl
        · cases he

theorem getRecord_error_kind (id : String) (mv : Bool) (st : ClientState) (ω : Oracle α)
    (ht : strTruthy st.currentTable = true) (e : BCError)
    (he : (getRecord id mv st ω).1 = .error e) : e.isRaisedKind = true := by
  unfold getRecord at he
  rcases hF : fetchWithAuth (ω.recordGet id) ("tables/rows/get?id=" ++ id) st ω with ⟨r, st1, tr⟩
  rcases r with e' | resp
  · simp only [hF] at he
    injection he with h'
    subst h'
    exact fetchWithAuth_error_kind _ _ _ _ ht _ (by rw [hF])
  · simp only [hF] at he
    by_cases hok : respOk resp.status = false
    · rw [if_pos hok] at he
      injection he with h'
      subst h'
      rfl
    · rw [if_neg hok] at he
      by_cases hmv : mv = false
      · rw [if_pos hmv] at he
        cases he
      · rw [if_neg hmv] at he
        rcases hd : resp.body.data with _ | record <;> simp only [hd] at he
        · cases he
        · rcases hfds : resp.body.fields with _ | fields <;> simp only [hfds] at he
          · injection he with h'; subst h'; rfl
          · cases he

theorem getFields_error_kind (st : ClientState) (ω : Oracle α)
    (ht : strTruthy st.currentTable = true) (e : BCError)
    (he : (getFields st ω).1 = .error e) : e.isRaisedKind = true := by
  unfold getFields at he
  rcases hF : fetchWithAuth ω.fieldsList "tables/fields" st ω with ⟨r, st1, tr⟩
  rcases r with e' | resp
  · simp only [hF] at he
    injection he with h'
    subst h'
    exact fetchWithAuth_error_kind _ _ _ _ ht _ (by rw [hF])
  · simp only [hF] at he
    by_cases hok : respOk resp.status = false
    · rw [if_pos hok] at he
      injection he with h'
      subst h'
      rfl
    · rw [if_neg hok] at he
      cases he

theorem postOp_error_kind (endpoint : String) (st : ClientState) (ω : Oracle α)
    (ht : strTruthy st.currentTable = true) (e : BCError)
    (he : (postOp endpoint st ω).1 = .error e) : e.isRaisedKind = true := by
  unfold postOp at he
  rcases hF : fetchWithAuth (ω.post endpoint) endpoint st ω with ⟨r, st1, tr⟩
  rcases r with e' | resp
  · simp only [hF] at he
    injection he with h'
    subst h'
    exact fetchWithAuth_error_kind _ _ _ _ ht _ (by rw [hF])
  · simp only [hF] at he
    by_cases hok : respOk resp.status = false
    · rw [if_pos hok] at he
      injection he with h'
      subst h'
      rfl
    · rw [if_neg hok] at he
      cases he

theorem setTable_error_kind (u : String) (st : ClientState) (ω : Oracle α)
    (hu : u ≠ "") (e : BCError)
    (he : (setTable u st ω).1 = .error e) : e.isRaisedKind = true := by
  unfold setTable at he
  split at he
  · exact authenticate_error_kind _ ω (by simp [strTruthy, hu]) e he
  · cases he

theorem getRecords_notable (mv : Bool) (st : ClientState) (ω : Oracle α)
    (ht : strTruthy st.currentTable = false) :
    (getRecords mv st ω).1 = .error (.runtimeError tableNotSetMsg) := by
  unfold getRecords
  rw [fetchWithAuth_notable _ _ _ _ ht]

theorem getRecords_cached (mv : Bool) (st : ClientState) (ω : Oracle α) (b : String)
    (ht : strTruthy st.currentTable = true) (hb : st.authToken = some b) (hb2 : b ≠ "") :
    getRecords mv st ω =
      (if respOk (ω.recordsData b).status = false then
        (.error (.basesClientError (httpErrMsg (ω.recordsData b).status (ω.recordsData b).statusText)),
          st, [.domainCall "tables/data" b])
      else if mv = false then
        (.ok (ω.recordsData b).body, st, [.domainCall "tables/data" b])
      else
        match (ω.recordsData b).body.fields, (ω.recordsData b).body.data with
        | some fields, some records =>
          (.ok { fields := some fields
                 data := some (records.map (mapRecordToLabels (mkFieldMap fields))) },
            st, [.domainCall "tables/data" b])
        | some _, none =>
          (.error (.basesClientError "Invalid response structure: expected data and fields arrays"),
            st, [.domainCall "tables/data" b])
        | none, _ =>
          (.error (.basesClientError "Invalid response structure: expected data and fields arrays"),
            st, [.domainCall "tables/data" b])) := by
  unfold getRecords
  rw [fetchWithAuth_cached ω.recordsData "tables/data" st ω b ht hb hb2]

theorem getRecord_cached (id : String) (mv : Bool) (st : ClientState) (ω : Oracle α) (b : String)
    (ht : strTruthy st.currentTable = true) (hb : st.authToken = some b) (hb2 : b ≠ "") :
    getRecord id mv st ω =
      (if respOk (ω.recordGet id b).status = false then
        (.error (.basesClientError (httpErrMsg (ω.recordGet id b).status (ω.recordGet id b).statusText)),
          st, [.domainCall ("tables/rows/get?id=" ++ id) b])
      else if mv = false then
        (.ok (ω.recordGet id b).body, st, [.domainCall ("tables/rows/get?id=" ++ id) b])
      else
        match (ω.recordGet id b).body.data with
        | none => (.ok (ω.recordGet id b).body, st, [.domainCall ("tables/rows/get?id=" ++ id) b])
        | some record =>
          match (ω.recordGet id b).body.fields with
          | none =>
            (.error (.basesClientError "Invalid response structure: expected fields array"),
              st, [.domainCall ("tables/rows/get?id=" ++ id) b])
          | some fields =>
            (.ok { data := some (mapRecordToLabels (mkFieldMap fields) record)
                   fields := some fields },
              st, [.domainCall ("tables/rows/get?id=" ++ id) b])) := by
  unfold getRecord
  rw [fetchWithAuth_cached (ω.recordGet id) ("tables/rows/get?id=" ++ id) st ω b ht hb hb2]

theorem getFields_cached (st : ClientState) (ω : Oracle α) (b : String)
    (ht : strTruthy st.currentTable = true) (hb : st.authToken = some b) (hb2 : b ≠ "") :
    getFields st ω =
      (if respOk (ω.fieldsList b).status = false then
        (.error (.basesClientError (httpErrMsg (ω.fieldsList b).status (ω.fieldsList b).statusText)),
          st, [.domainCall "tables/fields" b])
      else
        (.ok (ω.fieldsList b).body, st, [.domainCall "tables/fields" b])) := by
  unfold getFields
  rw [fetchWithAuth_cached ω.fieldsList "tables/fields" st ω b ht hb hb2]

theorem postOp_cached (endpoint : String) (st : ClientState) (ω : Oracle α) (b : String)
    (ht : strTruthy st.currentTable = true) (hb : st.authToken = some b) (hb2 : b ≠ "") :
    postOp endpoint st ω =
      (if respOk (ω.post endpoint b).status = false then
        (.error (.basesClientError (httpErrMsg (ω.post endpoint b).status (ω.post endpoint b).statusText)),
          st, [.domainCall endpoint b])
      else
        (.ok { success := (ω.post endpoint b).body.success }, st, [.domainCall endpoint b])) := by
  unfold postOp
  rw [fetchWithAuth_cached (ω.post endpoint) endpoint st ω b ht hb hb2]

/-! ## Concrete fixtures used by witnesses and counterexamples -/

/-- A concrete identity configuration. -/
def cfgW : Config := { org := "o", db := "d", token := "k" }

/-- A client with a table selected and no cached credential. -/
def stTableOnly : ClientState := { config := cfgW, currentTable := some "t", authToken := none }

/-- A client with a table selected and a cached credential `"B"`. -/
def stCached : ClientState := { config := cfgW, currentTable := some "t", authToken := some "B" }

/-- A client with no table selected. -/
def stNoTable : ClientState := { config := cfgW, currentTable := none, authToken := none }

/-- Successful authentication response carrying token `"tok"`. -/
def authRespOk : AuthResp := { status := 200, statusText := "OK", dataField := some "tok", errMessage := none }

/-- 401 authentication response. -/
def authResp401 : AuthResp := { status := 401, statusText := "Unauthorized", dataField := none, errMessage := none }

/-- 400 authentication response carrying a service message. -/
def authResp400 : AuthResp := { status := 400, statusText := "Bad Request", dataField := none, errMessage := some "bad tbl" }

/-- 500 authentication response. -/
def authResp500 : AuthResp := { status := 500, statusText := "Server Error", dataField := none, errMessage := none }

/-- 2xx authentication response whose body has no `data` field. -/
def authRespNoTok : AuthResp := { status := 200, statusText := "OK", dataField := none, errMessage := none }

/-- Well-formed empty `tables/data` body. -/
def okRecordsBody : RecordsBody Nat := { fields := some [], data := some [] }

/-- Successful `tables/data` response. -/
def okRecordsResp : HttpResp (RecordsBody Nat) := ⟨200, "OK", okRecordsBody⟩

/-- 2xx `tables/data` response with a malformed body (no `fields` array). -/
def badRecordsResp : HttpResp (RecordsBody Nat) := ⟨200, "OK", { fields := none, data := some [] }⟩

/-- 500 `tables/data` response. -/
def recordsResp500 : HttpResp (RecordsBody Nat) := ⟨500, "Server Error", okRecordsBody⟩

/-- 2xx `tables/rows/get` response reporting the record as null. -/
def nullRecordResp : HttpResp (RecordBody Nat) := ⟨200, "OK", { data := none, fields := some [] }⟩

/-- 2xx `tables/rows/get` response with a record but no `fields` array. -/
def recBadFieldsResp : HttpResp (RecordBody Nat) := ⟨200, "OK", { data := some [("f", 1)], fields := none }⟩

/-- Successful `tables/fields` response. -/
def okFieldsResp : HttpResp (List FieldDef) := ⟨200, "OK", []⟩

/-- Successful POST response. -/
def okPostResp : HttpResp SuccessBody := ⟨200, "OK", ⟨true⟩⟩

/-- Oracle with constant responses. -/
def mkOracleN (a : AuthResp) (rb : HttpResp (RecordsBody Nat)) (gb : HttpResp (RecordBody Nat))
    (fb : HttpResp (List FieldDef)) (pb : HttpResp SuccessBody) : Oracle Nat :=
  { auth := fun _ => a
    recordsData := fun _ => rb
    recordGet := fun _ _ => gb
    fieldsList := fun _ => fb
    post := fun _ _ => pb }

/-- Everything succeeds. -/
def oracleAllOk : Oracle Nat := mkOracleN authRespOk okRecordsResp nullRecordResp okFieldsResp okPostResp

/-- Authentication rejected with 401. -/
def oracle401 : Oracle Nat := mkOracleN authResp401 okRecordsResp nullRecordResp okFieldsResp okPostResp

/-- Authentication answered with 400. -/
def oracle400 : Oracle Nat := mkOracleN authResp400 okRecordsResp nullRecordResp okFieldsResp okPostResp

/-- Authentication fails with 500. -/
def oracle500Auth : Oracle Nat := mkOracleN authResp500 okRecordsResp nullRecordResp okFieldsResp okPostResp

/-- Authentication succeeds at transport level but returns no token. -/
def oracleNoTok : Oracle Nat := mkOracleN authRespNoTok okRecordsResp nullRecordResp okFieldsResp okPostResp

/-- Every domain call fails with 500. -/
def oracleDom500 : Oracle Nat :=
  mkOracleN authRespOk recordsResp500 ⟨500, "Server Error", { data := none, fields := none }⟩
    ⟨500, "Server Error", []⟩ ⟨500, "Server Error", ⟨true⟩⟩

/-- Domain calls succeed but return malformed bodies. -/
def oracleBadBody : Oracle Nat := mkOracleN authRespOk badRecordsResp recBadFieldsResp okFieldsResp okPostResp

/-! ## Claim C1 -/

/-- C1 counterexample: for the client with active table `"t"` and the
all-successful oracle, `setTable "u"` does issue a network call (its trace is
nonempty — it is not a pure state mutation), and the next domain operation
then triggers zero (not exactly one) new authentication calls. -/
theorem c1_counterexample :
    ¬ ((setTable "u" stTableOnly oracleAllOk).2.2 = []) ∧
    countAuth (getRecords true (setTable "u" stTableOnly oracleAllOk).2.1 oracleAllOk).2.2 = 0 := by
  refine ⟨by decide, by decide⟩

/-- C1 (amended): for every client and every table `u` that is nonempty and
differs from the active table, `setTable u` replaces the active table with
`u`, clears the cached credential, and eagerly issues exactly one
authentication call (so it can fail); on failure the credential stays
cleared, and on success the credential is already renewed, so the next
domain operation triggers no new authentication call. -/
theorem c1_setTable_eager_auth (st : ClientState) (u : String) (ω : Oracle α)
    (hne : st.currentTable ≠ some u) (hu : u ≠ "") :
    (setTable u st ω).2.1.currentTable = some u ∧
    (setTable u st ω).2.2 = [Request.authCall st.config.org st.config.db st.config.token u] ∧
    (∀ e, (setTable u st ω).1 = .error e → (setTable u st ω).2.1.authToken = none) ∧
    ((setTable u st ω).1 = .ok () → ∀ mv,
      countAuth (getRecords mv (setTable u st ω).2.1 ω).2.2 = 0) := by
  have hset : setTable u st ω =
      authenticate { st with currentTable := some u, authToken := none } ω := by
    unfold setTable
    rw [if_pos hne]
  rw [hset, authenticate_some { st with currentTable := some u, authToken := none } ω u rfl hu]
  rcases hc : classifyAuth (ω.auth u) with e' | tok
  · refine ⟨rfl, rfl, fun e _ => rfl, fun hok => ?_⟩
    cases hok
  · refine ⟨rfl, rfl, fun e he => ?_, ?_⟩
    · cases he
    · intro _ mv
      have htok : tok ≠ "" := classifyAuth_ok_ne _ _ hc
      rw [getRecords_cached mv _ ω tok (by simp [strTruthy, hu]) rfl htok]
      by_cases hok : respOk (ω.recordsData tok).status = false
      · rw [if_pos hok]
        rfl
      · rw [if_neg hok]
        by_cases hmv : mv = false
        · rw [if_pos hmv]
          rfl
        · rw [if_neg hmv]
          rcases hfds : (ω.recordsData tok).body.fields with _ | fields <;>
            rcases hdd : (ω.recordsData tok).body.data with _ | records <;>
            simp only [hfds, hdd] <;> rfl

/-- C1 witness: the amended theorem applied to the concrete client and
oracle. -/
theorem c1_witness :
    (setTable "u" stTableOnly oracleAllOk).2.2 = [Request.authCall "o" "d" "k" "u"] ∧
    countAuth (getRecords true (setTable "u" stTableOnly oracleAllOk).2.1 oracleAllOk).2.2 = 0 := by
  obtain ⟨h1, h2, h3, h4⟩ :=
    c1_setTable_eager_auth stTableOnly "u" oracleAllOk (by decide) (by decide)
  exact ⟨h2, h4 rfl true⟩

/-! ## Claim C2 -/

/-- Two field definitions sharing the label `"L"`. -/
def fieldsDupLabel : List FieldDef := [⟨"a", "L", "", "", ""⟩, ⟨"b", "L", "", "", ""⟩]

/-- A record keyed by the two ids `"a"` and `"b"`. -/
def recAB : Rec Nat := [("a", 0), ("b", 1)]

/-- C2 counterexample: with two field definitions sharing the label `"L"`,
the key `"a"` appears as an id in the field list and in the record, yet the
id→label mapping followed by the label→id reversal loses it (both keys
collapse onto `"L"`, which reverses to `"b"`). -/
theorem c2_counterexample :
    "a" ∈ keysOf recAB ∧ (∃ f ∈ fieldsDupLabel, f.id = "a") ∧
    "a" ∉ keysOf (mapRecordToIds (mkReverseMap fieldsDupLabel)
      (mapRecordToLabels (mkFieldMap fieldsDupLabel) recAB)) := by
  refine ⟨by decide, ⟨⟨"a", "L", "", "", ""⟩, by decide, rfl⟩, by decide⟩

/-- C2 (amended): the id→label mapping followed by the label→id reversal
recovers every original record key that appears as the id of a field
definition carrying both an id and a label, provided the kept field
definitions (those with both an id and a label) have pairwise distinct
labels.  Without that injectivity proviso, or for a key that is only the id
of a skipped definition, the round trip can lose keys. -/
theorem c2_roundtrip_amended (F : List FieldDef) (R : Rec α) (k : String)
    (hlbl : ((F.filter fun f => decide (f.id ≠ "" ∧ f.label ≠ "")).map (fun f => f.label)).Nodup)
    (hid : ∃ f ∈ F, f.id = k ∧ f.id ≠ "" ∧ f.label ≠ "")
    (hkR : k ∈ keysOf R) :
    k ∈ keysOf (mapRecordToIds (mkReverseMap F) (mapRecordToLabels (mkFieldMap F) R)) := by
  obtain ⟨f₀, hf₀, h0id, h0ne, h0lb⟩ := hid
  obtain ⟨L, hL⟩ := buildMap_complete (fun f => f.id) (fun f => f.label) F k ⟨f₀, hf₀, h0ne, h0lb, h0id⟩
  obtain ⟨f₁, hf₁, h1ne, h1lb, h1gk, h1hl⟩ := buildMap_sound (fun f => f.id) (fun f => f.label) F k L hL
  have hLne : L ≠ "" := h1hl ▸ h1lb
  have hmapKey : mapKey (mkFieldMap F) k = L := by
    simp only [mapKey, mkFieldMap, hL]
    rw [if_neg hLne]
  obtain ⟨I, hI⟩ := buildMap_complete (fun f => f.label) (fun f => f.id) F L ⟨f₁, hf₁, h1ne, h1lb, h1hl⟩
  obtain ⟨f₂, hf₂, h2ne, h2lb, h2gk, h2hl⟩ := buildMap_sound (fun f => f.label) (fun f => f.id) F L I hI
  have hf₁f₂ : f₁ = f₂ := by
    have hm₁ : f₁ ∈ F.filter (fun f => decide (f.id ≠ "" ∧ f.label ≠ "")) :=
      List.mem_filter_of_mem hf₁ (by simp [h1ne, h1lb])
    have hm₂ : f₂ ∈ F.filter (fun f => decide (f.id ≠ "" ∧ f.label ≠ "")) :=
      List.mem_filter_of_mem hf₂ (by simp [h2ne, h2lb])
    exact List.inj_on_of_nodup_map hlbl hm₁ hm₂ (by rw [h1hl, h2gk])
  have hIk : I = k := by rw [← h2hl, ← hf₁f₂, h1gk]
  have hunmapKey : unmapKey (mkReverseMap F) L = k := by
    simp only [unmapKey, mkReverseMap, hI]
    exact hIk
  obtain ⟨v, hv⟩ := (mem_keysOf R k).1 hkR
  have hLmem : L ∈ keysOf (mapRecordToLabels (mkFieldMap F) R) := by
    have := remapRecord_mem_keys (mapKey (mkFieldMap F)) R k v hv
    rwa [hmapKey] at this
  obtain ⟨v', hv'⟩ := (mem_keysOf _ L).1 hLmem
  have := remapRecord_mem_keys (unmapKey (mkReverseMap F)) _ L v' hv'
  rwa [hunmapKey] at this

/-- C2 witness: the amended theorem applied to a concrete field list with
distinct labels and a concrete record. -/
theorem c2_witness :
    "a" ∈ keysOf (mapRecordToIds (mkReverseMap [⟨"a", "Name", "", "", ""⟩])
      (mapRecordToLabels (mkFieldMap [⟨"a", "Name", "", "", ""⟩]) [("a", (5 : Nat)), ("x", 7)])) :=
  c2_roundtrip_amended [⟨"a", "Name", "", "", ""⟩] [("a", (5 : Nat)), ("x", 7)] "a"
    (by decide) ⟨⟨"a", "Name", "", "", ""⟩, by decide, rfl, by decide, by decide⟩ (by decide)

/-! ## Claim C3 -/

/-- A single field definition mapping id `"b"` to label `"a"`. -/
def fieldsBtoA : List FieldDef := [⟨"b", "a", "", "", ""⟩]

/-- A record with keys `"a"` and `"b"`. -/
def recC3 : Rec Nat := [("a", 0), ("b", 1)]

/-- C3 counterexample: key `"a"` is not in the lookup built from the field
list, so the claim requires it to keep its value `0`; but the mapped key of
`"b"` collides with it and overwrites the value, so `"a"` maps to `1` in the
output. -/
theorem c3_counterexample :
    lookupObj (mkFieldMap fieldsBtoA) "a" = none ∧
    ("a", 0) ∈ recC3 ∧
    lookupObj (mapRecordToLabels (mkFieldMap fieldsBtoA) recC3) "a" ≠ some 0 := by
  refine ⟨by decide, by decide, by decide⟩

/-- C3 (amended): the mapping step builds an id→label lookup containing
exactly the ids of field definitions that carry both an id and a label, and
— provided no two distinct keys of the record are sent to the same output
key — each original key `k` is stored at `mapKey k` (its label when `k` is
in the lookup, `k` itself otherwise) with its original value.  Without the
collision proviso a later key can overwrite an earlier one. -/
theorem c3_mapping_amended (F : List FieldDef) (R : Rec α)
    (hnd : (keysOf R).Nodup)
    (hinj : ∀ k₁ ∈ keysOf R, ∀ k₂ ∈ keysOf R,
      mapKey (mkFieldMap F) k₁ = mapKey (mkFieldMap F) k₂ → k₁ = k₂) :
    (∀ k, (∃ l, lookupObj (mkFieldMap F) k = some l) ↔
      ∃ f ∈ F, f.id ≠ "" ∧ f.label ≠ "" ∧ f.id = k) ∧
    (∀ k v, (k, v) ∈ R →
      lookupObj (mapRecordToLabels (mkFieldMap F) R) (mapKey (mkFieldMap F) k) = some v) := by
  constructor
  · intro k
    constructor
    · rintro ⟨l, hl⟩
      obtain ⟨f, hf, hne, hlb, hgk, _⟩ :=
        buildMap_sound (fun f => f.id) (fun f => f.label) F k l hl
      exact ⟨f, hf, hne, hlb, hgk⟩
    · intro hex
      exact buildMap_complete (fun f => f.id) (fun f => f.label) F k hex
  · intro k v hv
    exact remapRecord_lookup (mapKey (mkFieldMap F)) R hnd hinj k v hv

/-- C3 witness: the amended theorem applied to a concrete field list and
record with no key collisions — the mapped key keeps its value and the
unmapped key passes through with its value. -/
theorem c3_witness :
    lookupObj (mapRecordToLabels (mkFieldMap [⟨"f1", "Name", "", "", ""⟩])
      [("f1", (3 : Nat)), ("x", 4)]) "Name" = some 3 ∧
    lookupObj (mapRecordToLabels (mkFieldMap [⟨"f1", "Name", "", "", ""⟩])
      [("f1", (3 : Nat)), ("x", 4)]) "x" = some 4 := by
  have h := (c3_mapping_amended [⟨"f1", "Name", "", "", ""⟩] [("f1", (3 : Nat)), ("x", 4)]
    (by decide) (by decide)).2
  exact ⟨h "f1" 3 (by decide), h "x" 4 (by decide)⟩

/-! ## Claim C4 -/

/-- C4 counterexample: constructing a client from a configuration with no
identity material at all (empty org, db and token) does not fail — no error
is raised and the client is produced. -/
theorem c4_counterexample :
    (¬ ∃ e, construct ⟨"", "", "", none⟩ = .error e) ∧
    construct ⟨"", "", "", none⟩ =
      .ok { config := ⟨"", "", ""⟩, currentTable := none, authToken := none } := by
  constructor
  · rintro ⟨e, he⟩
    cases he
  · rfl

/-- C4 (amended): construction never fails, whatever the configuration: the
constructor stores the identity material unchecked, adopts a truthy `tbl` as
the current table, and leaves the credential absent.  Missing identity
material surfaces only later, when the service rejects the authentication
call. -/
theorem c4_construct_never_fails (cfg : ConfigIn) :
    construct cfg = .ok
      { config := { org := cfg.org, db := cfg.db, token := cfg.token }
        currentTable := if strTruthy cfg.tbl then cfg.tbl else none
        authToken := none } := rfl

/-! ## Claim C5 -/

/-- C5 counterexample: calling `getRecords` with no table selected surfaces
a plain runtime `Error` (the table-not-set precondition), which is neither
an `AuthenticationError` nor a `ClientError`. -/
theorem c5_counterexample :
    (getRecords true stNoTable oracleAllOk).1 = .error (.runtimeError tableNotSetMsg) ∧
    (BCError.runtimeError tableNotSetMsg).isRaisedKind = false :=
  ⟨rfl, rfl⟩

/-- C5 (amended): with a (truthy) table selected, every failure surfaced by
any operation — getRecords, getRecord, getFields, every success-reporting
POST operation, and setTable to a nonempty table — is one of the two error
classes of `src/errors.ts` (`AuthenticationError` or `BasesClientError`);
the exception is the table-not-set precondition violation, which is thrown
as a plain runtime `Error`. -/
theorem c5_two_error_kinds (st : ClientState) (ω : Oracle α) (mv : Bool)
    (id u endpoint : String) (e : BCError)
    (ht : strTruthy st.currentTable = true) (hu : u ≠ "") :
    ((getRecords mv st ω).1 = .error e → e.isRaisedKind = true) ∧
    ((getRecord id mv st ω).1 = .error e → e.isRaisedKind = true) ∧
    ((getFields st ω).1 = .error e → e.isRaisedKind = true) ∧
    ((postOp endpoint st ω).1 = .error e → e.isRaisedKind = true) ∧
    ((setTable u st ω).1 = .error e → e.isRaisedKind = true) :=
  ⟨getRecords_error_kind mv st ω ht e,
   getRecord_error_kind id mv st ω ht e,
   getFields_error_kind st ω ht e,
   postOp_error_kind endpoint st ω ht e,
   setTable_error_kind u st ω hu e⟩

/-- C5 witness: with the table selected and the authentication call failing
with 500, `getRecords` surfaces a `BasesClientError` — one of the two raised
kinds. -/
theorem c5_witness :
    (BCError.basesClientError (httpErrMsg 500 "Server Error")).isRaisedKind = true :=
  (c5_two_error_kinds stTableOnly oracle500Auth true "i" "u" "tables/rows/update"
    (.basesClientError (httpErrMsg 500 "Server Error")) (by decide) (by decide)).1 rfl

/-! ## Claim C6 -/

/-- C6: for every response of the authentication call (with a truthy table
selected): a 401 status fails with an `AuthenticationError`; a 400 status
fails with an `AuthenticationError` carrying the service-provided message or
the `"Invalid request"` default; every other non-2xx status fails with a
`ClientError` whose message carries the numeric status; and on a 2xx
response the returned (truthy) token is cached as the credential. -/
theorem c6_auth_classification (st : ClientState) (ω : Oracle α) (t : String)
    (ht : st.currentTable = some t) (ht2 : t ≠ "") :
    ((ω.auth t).status = 401 →
      (authenticate st ω).1 = .error (.authenticationError "Invalid credentials provided")) ∧
    ((ω.auth t).status = 400 →
      (authenticate st ω).1 =
        .error (.authenticationError (orDefault (ω.auth t).errMessage "Invalid request"))) ∧
    (respOk (ω.auth t).status = false → (ω.auth t).status ≠ 401 → (ω.auth t).status ≠ 400 →
      (authenticate st ω).1 =
        .error (.basesClientError (httpErrMsg (ω.auth t).status (ω.auth t).statusText))) ∧
    (∀ tok, respOk (ω.auth t).status = true → (ω.auth t).dataField = some tok → tok ≠ "" →
      (authenticate st ω).1 = .ok () ∧
      (authenticate st ω).2.1 = { st with authToken := some tok }) := by
  rw [authenticate_some st ω t ht ht2]
  refine ⟨?_, ?_, ?_, ?_⟩
  · intro h401
    rw [classifyAuth_401 _ h401]
  · intro h400
    rw [classifyAuth_400 _ h400]
  · intro hok h401 h400
    rw [classifyAuth_other _ hok h401 h400]
  · intro tok hok hdf htok
    rw [classifyAuth_token _ tok hok hdf htok]
    exact ⟨rfl, rfl⟩

/-- C6 witness: a 401 authentication response yields the
`AuthenticationError`, and a successful one caches the token. -/
theorem c6_witness :
    (authenticate stTableOnly oracle401).1 =
      .error (.authenticationError "Invalid credentials provided") ∧
    (authenticate stTableOnly oracleAllOk).1 = .ok () := by
  constructor
  · exact (c6_auth_classification stTableOnly oracle401 "t" rfl (by decide)).1 rfl
  · exact ((c6_auth_classification stTableOnly oracleAllOk "t" rfl (by decide)).2.2.2
      "tok" rfl rfl (by decide)).1

/-! ## Claim C7 -/

/-- C7: for every domain operation and every non-2xx transport response
(with a truthy table and a cached truthy credential), the operation fails
with a `ClientError` whose message embeds the numeric status and status text
— in particular a 401 on a domain call is this generic `ClientError`, not an
`AuthenticationError` — and the whole trace is the single domain call: no
re-authentication and no retry happens in response to the failure. -/
theorem c7_domain_non2xx (st : ClientState) (ω : Oracle α) (mv : Bool)
    (id endpoint b : String)
    (ht : strTruthy st.currentTable = true) (hb : st.authToken = some b) (hb2 : b ≠ "") :
    (respOk (ω.recordsData b).status = false →
      getRecords mv st ω =
        (.error (.basesClientError (httpErrMsg (ω.recordsData b).status (ω.recordsData b).statusText)),
          st, [.domainCall "tables/data" b])) ∧
    (respOk (ω.recordGet id b).status = false →
      getRecord id mv st ω =
        (.error (.basesClientError (httpErrMsg (ω.recordGet id b).status (ω.recordGet id b).statusText)),
          st, [.domainCall ("tables/rows/get?id=" ++ id) b])) ∧
    (respOk (ω.fieldsList b).status = false →
      getFields st ω =
        (.error (.basesClientError (httpErrMsg (ω.fieldsList b).status (ω.fieldsList b).statusText)),
          st, [.domainCall "tables/fields" b])) ∧
    (respOk (ω.post endpoint b).status = false →
      postOp endpoint st ω =
        (.error (.basesClientError (httpErrMsg (ω.post endpoint b).status (ω.post endpoint b).statusText)),
          st, [.domainCall endpoint b])) := by
  refine ⟨?_, ?_, ?_, ?_⟩
  · intro hok
    rw [getRecords_cached mv st ω b ht hb hb2, if_pos hok]
  · intro hok
    rw [getRecord_cached id mv st ω b ht hb hb2, if_pos hok]
  · intro hok
    rw [getFields_cached st ω b ht hb hb2, if_pos hok]
  · intro hok
    rw [postOp_cached endpoint st ω b ht hb hb2, if_pos hok]

/-- C7 witness: a 500 on `tables/data` with a cached credential yields the
generic `ClientError` with the status embedded, after exactly one domain
call and no authentication call. -/
theorem c7_witness :
    getRecords true stCached oracleDom500 =
      (.error (.basesClientError (httpErrMsg 500 "Server Error")), stCached,
        [.domainCall "tables/data" "B"]) :=
  (c7_domain_non2xx stCached oracleDom500 true "i" "e" "B" (by decide) rfl (by decide)).1 rfl

/-! ## Claim C8 -/

/-- C8: with a truthy table and cached credential — a 2xx `getRecords`
response whose body is missing `fields` or `data` (or has a non-array there)
fails with a `ClientError` when mapping is requested; a 2xx `getRecord`
response with a non-null record but missing `fields` fails with a
`ClientError` when mapping is requested; and with `mapValues` false both
operations return the raw parsed body untouched, building no lookup. -/
theorem c8_malformed_loud (st : ClientState) (ω : Oracle α) (id b : String)
    (ht : strTruthy st.currentTable = true) (hb : st.authToken = some b) (hb2 : b ≠ "") :
    (respOk (ω.recordsData b).status = true →
      ((ω.recordsData b).body.fields = none ∨ (ω.recordsData b).body.data = none) →
      (getRecords true st ω).1 =
        .error (.basesClientError "Invalid response structure: expected data and fields arrays")) ∧
    (respOk (ω.recordsData b).status = true →
      (getRecords false st ω).1 = .ok (ω.recordsData b).body) ∧
    (∀ r, respOk (ω.recordGet id b).status = true →
      (ω.recordGet id b).body.data = some r → (ω.recordGet id b).body.fields = none →
      (getRecord id true st ω).1 =
        .error (.basesClientError "Invalid response structure: expected fields array")) ∧
    (respOk (ω.recordGet id b).status = true →
      (getRecord id false st ω).1 = .ok (ω.recordGet id b).body) := by
  refine ⟨?_, ?_, ?_, ?_⟩
  · intro hok hmal
    rw [getRecords_cached true st ω b ht hb hb2, if_neg (by simp [hok]),
      if_neg (by decide : ¬((true : Bool) = false))]
    rcases hmal with hf | hd
    · rcases hdd : (ω.recordsData b).body.data with _ | records <;> simp only [hf, hdd]
    · rcases hff : (ω.recordsData b).body.fields with _ | fields <;> simp only [hff, hd]
  · intro hok
    rw [getRecords_cached false st ω b ht hb hb2, if_neg (by simp [hok]), if_pos rfl]
  · intro r hok hdata hfields
    rw [getRecord_cached id true st ω b ht hb hb2, if_neg (by simp [hok]),
      if_neg (by decide : ¬((true : Bool) = false))]
    simp only [hdata, hfields]
  · intro hok
    rw [getRecord_cached id false st ω b ht hb hb2, if_neg (by simp [hok]), if_pos rfl]

/-- C8 witness: a 2xx body with `fields` missing makes `getRecords` fail
loudly, and with `mapValues` false the same body is returned raw. -/
theorem c8_witness :
    (getRecords true stCached oracleBadBody).1 =
      .error (.basesClientError "Invalid response structure: expected data and fields arrays") ∧
    (getRecords false stCached oracleBadBody).1 = .ok { fields := none, data := some [] } := by
  obtain ⟨h1, h2, h3, h4⟩ := c8_malformed_loud stCached oracleBadBody "i" "B" (by decide) rfl (by decide)
  exact ⟨h1 rfl (Or.inl rfl), h2 rfl⟩

/-! ## Claim C9 -/

/-- C9: a 2xx `getRecord` response that reports the record as null is
returned to the caller unchanged (the null data/fields pair), with no
mapping applied and no error raised, for both values of `mapValues`. -/
theorem c9_null_passthrough (st : ClientState) (ω : Oracle α) (id b : String) (mv : Bool)
    (ht : strTruthy st.currentTable = true) (hb : st.authToken = some b) (hb2 : b ≠ "")
    (hok : respOk (ω.recordGet id b).status = true)
    (hnull : (ω.recordGet id b).body.data = none) :
    (getRecord id mv st ω).1 = .ok (ω.recordGet id b).body := by
  rw [getRecord_cached id mv st ω b ht hb hb2, if_neg (by simp [hok])]
  by_cases hmv : mv = false
  · rw [if_pos hmv]
  · rw [if_neg hmv]
    simp only [hnull]

/-- C9 witness: the all-successful oracle reports the record as null and
`getRecord` passes the pair through unchanged under both flags. -/
theorem c9_witness :
    (getRecord "i" true stCached oracleAllOk).1 = .ok { data := none, fields := some [] } ∧
    (getRecord "i" false stCached oracleAllOk).1 = .ok { data := none, fields := some [] } :=
  ⟨c9_null_passthrough stCached oracleAllOk "i" "B" true (by decide) rfl (by decide) rfl rfl,
   c9_null_passthrough stCached oracleAllOk "i" "B" false (by decide) rfl (by decide) rfl rfl⟩

/-! ## Claim C10 -/

/-- C10: a 2xx authentication response whose body has an absent, null or
empty-string `data` field fails with the `AuthenticationError`
`"Auth token not provided in response"` — not a `ClientError` — and leaves
the state (in particular the cached credential) unchanged; from this path
the dispatcher issues no domain request, so no request ever carries an
empty bearer credential. -/
theorem c10_falsy_token {β : Type} (st : ClientState) (ω : Oracle α) (t : String)
    (ht : st.currentTable = some t) (ht2 : t ≠ "")
    (hok : respOk (ω.auth t).status = true)
    (hfalsy : (ω.auth t).dataField = none ∨ (ω.auth t).dataField = some "") :
    (authenticate st ω).1 = .error (.authenticationError "Auth token not provided in response") ∧
    (authenticate st ω).2.1 = st ∧
    (authenticate st ω).2.2 = [.authCall st.config.org st.config.db st.config.token t] ∧
    (∀ (net : String → HttpResp β) endpoint, strTruthy st.authToken = false →
      fetchWithAuth net endpoint st ω =
        (.error (.authenticationError "Auth token not provided in response"), st,
          [.authCall st.config.org st.config.db st.config.token t])) := by
  have hcls := classifyAuth_falsy (ω.auth t) hok hfalsy
  rw [authenticate_some st ω t ht ht2, hcls]
  refine ⟨rfl, rfl, rfl, ?_⟩
  intro net endpoint htok
  rw [fetchWithAuth_uncached net endpoint st ω (by simp [strTruthy, ht, ht2]) htok,
    authenticate_some st ω t ht ht2, hcls]

/-- C10 witness: a 2xx authentication response with no `data` field fails
with the `AuthenticationError` and leaves the client state unchanged, and
the dispatcher issues no domain call from this path. -/
theorem c10_witness :
    (authenticate stTableOnly oracleNoTok).1 =
      .error (.authenticationError "Auth token not provided in response") ∧
    (authenticate stTableOnly oracleNoTok).2.1 = stTableOnly ∧
    fetchWithAuth oracleNoTok.recordsData "tables/data" stTableOnly oracleNoTok =
      (.error (.authenticationError "Auth token not provided in response"), stTableOnly,
        [.authCall "o" "d" "k" "t"]) := by
  obtain ⟨h1, h2, h3, h4⟩ :=
    c10_falsy_token stTableOnly oracleNoTok "t" rfl (by decide) rfl (Or.inl rfl)
  exact ⟨h1, h2, h4 oracleNoTok.recordsData "tables/data" rfl⟩
